import Mathlib

/- A verification development for the rust-tcp repository (src/src/tcp.rs):
   a user-space TCP connection state machine. The code is shallowly embedded
   below; 32-bit machine integers are modelled as Nat reduced modulo 2^32 at
   every wrapping operation. -/

namespace RustTcp

/-- The size of the 32-bit sequence-number space. -/
def m32 : Nat := 4294967296

/-- Rust u32.wrapping_add on values below 2^32. -/
def wadd (a b : Nat) : Nat := (a + b) % m32

/-- Rust u32.wrapping_sub on values below 2^32. -/
def wsub (a b : Nat) : Nat := (a + m32 - b) % m32

/-- Embedding of fn is_between_wrapped (src/src/tcp.rs lines 312-368).
    The source matches on start.cmp(x): Equal returns false; Less returns
    false when start <= end <= x and true otherwise; Greater returns true
    when end < start and end > x, and false otherwise. -/
def is_between_wrapped (start x e : Nat) : Bool :=
  if start = x then
    false
  else if start < x then
    if start ≤ e ∧ e ≤ x then false else true
  else
    if e < start ∧ x < e then true else false

/-- Membership of x strictly inside the circular interval that begins just
    after s and ends exclusively at e, on the ring of 32-bit sequence
    numbers. This is the spec's description of the contract, written
    independently of the code's case analysis. -/
def inCircular (s x e : Nat) : Prop :=
  0 < (x + m32 - s) % m32 ∧ (x + m32 - s) % m32 < (e + m32 - s) % m32

instance instDecidableInCircular (s x e : Nat) : Decidable (inCircular s x e) :=
  inferInstanceAs (Decidable (0 < (x + m32 - s) % m32 ∧ (x + m32 - s) % m32 < (e + m32 - s) % m32))

/-- The connection states of src/src/tcp.rs (enum State, lines 3-11). -/
inductive State
  | SynRcvd
  | Estab
  | FinWait1
  | FinWait2
  | TimeWait
deriving DecidableEq

/-- The source order of the State enum, used to speak about forward progress
    of the state machine. -/
def stateRank : State → Nat
  | .SynRcvd => 0
  | .Estab => 1
  | .FinWait1 => 2
  | .FinWait2 => 3
  | .TimeWait => 4

/-- Send sequence space, RFC 793 S3.2 F4 (struct SendSequenceSpace,
    lines 42-57). -/
structure SendSequenceSpace where
  una : Nat
  nxt : Nat
  wnd : Nat
  up : Bool
  wl1 : Nat
  wl2 : Nat
  iss : Nat
deriving DecidableEq

/-- Receive sequence space, RFC 793 S3.2 F5 (struct ReceiveSequenceSpace,
    lines 70-79). -/
structure ReceiveSequenceSpace where
  nxt : Nat
  wnd : Nat
  up : Bool
  irs : Nat
deriving DecidableEq

/-- The fields of the cached etherparse TCP header template that the code
    reads or writes. -/
structure TcpHeader where
  sourcePort : Nat
  destinationPort : Nat
  sequenceNumber : Nat
  acknowledgmentNumber : Nat
  syn : Bool
  ack : Bool
  fin : Bool
  rst : Bool
  windowSize : Nat
  checksum : Nat
deriving DecidableEq

/-- The fields of the cached etherparse IPv4 header template that the code
    reads or writes; source and destination are 4-byte addresses. -/
structure Ipv4Header where
  ttl : Nat
  protocol : Nat
  source : List Nat
  destination : List Nat
  payloadLen : Nat
deriving DecidableEq

/-- struct Connection (lines 22-28). -/
structure Connection where
  state : State
  send : SendSequenceSpace
  recv : ReceiveSequenceSpace
  ip : Ipv4Header
  tcph : TcpHeader
deriving DecidableEq

/-- The fields of an inbound parsed TCP header slice that accept and
    on_packet read. -/
structure SegIn where
  sourcePort : Nat
  destinationPort : Nat
  sequenceNumber : Nat
  acknowledgmentNumber : Nat
  syn : Bool
  ack : Bool
  fin : Bool
  windowSize : Nat
deriving DecidableEq

/-- The fields of an inbound parsed IPv4 header slice that accept reads. -/
structure IpIn where
  source : List Nat
  destination : List Nat
deriving DecidableEq

/-- An outbound segment as handed to nic.send: the header fields at
    serialization time plus the payload bytes that fit in the buffer. -/
structure SentSegment where
  sourcePort : Nat
  destinationPort : Nat
  seq : Nat
  ack : Nat
  syn : Bool
  ackFlag : Bool
  fin : Bool
  rst : Bool
  window : Nat
  checksum : Nat
  payload : List Nat
deriving DecidableEq

/-- Fold the end-around carries of a ones-complement sum down to 16 bits.
    Fuel-based so it reduces definitionally; fuel n always suffices because
    each step strictly decreases the value. -/
def foldCarryAux : Nat → Nat → Nat
  | 0, n => n
  | fuel + 1, n => if n < 65536 then n else foldCarryAux fuel (n % 65536 + n / 65536)

def foldCarry (n : Nat) : Nat := foldCarryAux n n

/-- Group a byte sequence into big-endian 16-bit words, zero-padding an odd
    tail byte. -/
def toWords16 : List Nat → List Nat
  | [] => []
  | [a] => [a * 256]
  | a :: b :: rest => (a * 256 + b) :: toWords16 rest

/-- The two 16-bit words of a 4-byte address. -/
def addrWords (bytes : List Nat) : List Nat :=
  [bytes.getD 0 0 * 256 + bytes.getD 1 0, bytes.getD 2 0 * 256 + bytes.getD 3 0]

/-- The IPv4 pseudo-header words of the TCP checksum: source address,
    destination address, protocol, and TCP length (header plus payload). -/
def pseudoHeaderWords (ip : Ipv4Header) (tcpLength : Nat) : List Nat :=
  addrWords ip.source ++ addrWords ip.destination ++ [ip.protocol, tcpLength]

/-- The combined flags-and-data-offset word of a 20-byte TCP header:
    data offset 5 in the upper nibble, then the flag bits. -/
def flagsWord (t : TcpHeader) : Nat :=
  20480 + (if t.fin then 1 else 0) + (if t.syn then 2 else 0)
    + (if t.rst then 4 else 0) + (if t.ack then 16 else 0)

/-- The ten 16-bit words of a 20-byte TCP header, with the checksum field
    taken as zero as the ones-complement sum requires. -/
def tcpHeaderWords (t : TcpHeader) : List Nat :=
  [t.sourcePort, t.destinationPort, t.sequenceNumber / 65536, t.sequenceNumber % 65536,
    t.acknowledgmentNumber / 65536, t.acknowledgmentNumber % 65536, flagsWord t,
    t.windowSize, 0, 0]

/-- Modelled from the spec: the external etherparse codec operation
    calc_checksum_ipv4, which computes the TCP ones-complement checksum over
    the IPv4 pseudo-header, the TCP header, and the given payload. -/
def calc_checksum_ipv4 (t : TcpHeader) (ip : Ipv4Header) (payload : List Nat) : Nat :=
  65535 - foldCarry ((pseudoHeaderWords ip (20 + payload.length) ++ tcpHeaderWords t
    ++ toWords16 payload).foldr (fun a b => a + b) 0)

/-- The result of one Connection::write call: the mutated connection, the
    segments actually handed to the interface (empty when nic.send fails),
    whether nic.send succeeded, and the count of payload bytes written into
    the buffer. -/
structure WriteResult where
  conn : Connection
  sent : List SentSegment
  success : Bool
  payloadBytes : Nat

/-- Embedding of Connection::write (src/src/tcp.rs lines 147-183). The nicOk
    argument models whether nic.send succeeds. Line 172 of the source computes
    send.nxt.wrapping_add(payload_bytes) but discards the result, so that
    advance is (faithfully) absent here. The buffer is 1500 bytes and both
    headers serialize to 20 bytes each, so at most 1460 payload bytes fit. -/
def Connection.write (c : Connection) (payload : List Nat) (nicOk : Bool) : WriteResult :=
  let tcph0 := { c.tcph with sequenceNumber := c.send.nxt, acknowledgmentNumber := c.recv.nxt }
  let size := min 1500 (20 + 20 + payload.length)
  let ip1 := { c.ip with payloadLen := size - 20 }
  let tcph1 := { tcph0 with checksum := calc_checksum_ipv4 tcph0 ip1 [] }
  let payloadBytes := min (1500 - 40) payload.length
  let seg : SentSegment :=
    { sourcePort := tcph1.sourcePort, destinationPort := tcph1.destinationPort,
      seq := tcph1.sequenceNumber, ack := tcph1.acknowledgmentNumber, syn := tcph1.syn,
      ackFlag := tcph1.ack, fin := tcph1.fin, rst := tcph1.rst, window := tcph1.windowSize,
      checksum := tcph1.checksum, payload := payload.take payloadBytes }
  let send1 := if tcph1.syn then { c.send with nxt := wadd c.send.nxt 1 } else c.send
  let tcph2 := if tcph1.syn then { tcph1 with syn := false } else tcph1
  let send2 := if tcph2.fin then { send1 with nxt := wadd send1.nxt 1 } else send1
  let tcph3 := if tcph2.fin then { tcph2 with fin := false } else tcph2
  let c1 : Connection := { c with send := send2, tcph := tcph3, ip := ip1 }
  if nicOk then ⟨c1, [seg], true, payloadBytes⟩ else ⟨c1, [], false, payloadBytes⟩

/-- The result of Connection::accept: Ok(None) when the segment carries no
    SYN, Err when the transmission fails, or Ok(Some) with the transmitted
    segments. -/
inductive AcceptResult
  | noConn
  | ioError
  | conn (c : Connection) (sent : List SentSegment)
deriving DecidableEq

def AcceptResult.getConn : AcceptResult → Option Connection
  | .conn c _ => some c
  | _ => none

def AcceptResult.getSent : AcceptResult → List SentSegment
  | .conn _ s => s
  | _ => []

/-- Embedding of Connection::accept (src/src/tcp.rs lines 82-145): on SYN,
    build the connection with iss = 0, an advertised window of 1024 stored in
    send.wnd and the header template, recv taken from the peer's SYN (the
    plain + 1 of line 110 wraps at 2^32 in release builds), the header
    templates with ports and addresses reversed, mark the template SYN+ACK
    (lines 141-142) and transmit once. -/
def Connection.accept (iph : IpIn) (tcph : SegIn) (data : List Nat) (nicOk : Bool) :
    AcceptResult :=
  if tcph.syn = false then .noConn
  else
    let iss := 0
    let wnd := 1024
    let c : Connection :=
      { state := .SynRcvd,
        send := { iss := iss, una := iss, nxt := iss, wnd := wnd, up := false,
                  wl1 := 0, wl2 := 0 },
        recv := { irs := tcph.sequenceNumber, nxt := wadd tcph.sequenceNumber 1,
                  wnd := tcph.windowSize, up := false },
        tcph := { sourcePort := tcph.destinationPort, destinationPort := tcph.sourcePort,
                  sequenceNumber := iss, acknowledgmentNumber := 0, syn := true, ack := true,
                  fin := false, rst := false, windowSize := wnd, checksum := 0 },
        ip := { ttl := 64, protocol := 6, source := iph.destination,
                destination := iph.source, payloadLen := 0 } }
    let w := c.write [] nicOk
    if w.success then .conn w.conn w.sent else .ioError

/-- Segment sequence length slen (src lines 212-218): payload length plus one
    for FIN and one for SYN, in u32 arithmetic. -/
def segLen (t : SegIn) (data : List Nat) : Nat :=
  (data.length % m32 + (if t.fin then 1 else 0) + (if t.syn then 1 else 0)) % m32

/-- The RFC 793 S3.3 acceptance test of on_packet (src lines 219-240); true
    means the segment is accepted. -/
def acceptanceTest (c : Connection) (t : SegIn) (data : List Nat) : Bool :=
  if segLen t data = 0 then
    if c.recv.wnd = 0 then decide (t.sequenceNumber = c.recv.nxt)
    else is_between_wrapped (wsub c.recv.nxt 1) t.sequenceNumber (wadd c.recv.nxt c.recv.wnd)
  else
    if c.recv.wnd = 0 then false
    else
      is_between_wrapped (wsub c.recv.nxt 1) t.sequenceNumber (wadd c.recv.nxt c.recv.wnd)
        || is_between_wrapped (wsub c.recv.nxt 1)
            (wadd t.sequenceNumber (segLen t data - 1)) (wadd c.recv.nxt c.recv.wnd)

/-- The outcome of one on_packet call: normal return, a propagated nic.send
    error, or a process abort from assert!/unreachable!. -/
inductive Outcome
  | done
  | ioError
  | panicked
deriving DecidableEq

/-- The observable result of one on_packet call. On a panic the connection
    value records the in-memory state at the abort point. -/
structure PacketResult where
  conn : Connection
  sent : List SentSegment
  outcome : Outcome

/-- Embedding of src lines 297-307: the inbound-FIN handling at the end of
    on_packet. Outside FinWait2 an inbound FIN hits unreachable!. -/
def finCheck (c : Connection) (t : SegIn) (sent : List SentSegment) (nicOk : Bool) :
    PacketResult :=
  if t.fin then
    if c.state = State.FinWait2 then
      let c1 := { c with tcph := { c.tcph with fin := false } }
      let w := c1.write [] nicOk
      if w.success then ⟨{ w.conn with state := State.TimeWait }, sent ++ w.sent, Outcome.done⟩
      else ⟨w.conn, sent ++ w.sent, Outcome.ioError⟩
    else ⟨c, sent, Outcome.panicked⟩
  else ⟨c, sent, Outcome.done⟩

/-- Embedding of src lines 290-295, then the FIN handling: in FinWait1, once
    send.una reaches iss + 2 our FIN is acknowledged and the state becomes
    FinWait2. -/
def finWait1Check (c : Connection) (t : SegIn) (sent : List SentSegment) (nicOk : Bool) :
    PacketResult :=
  if c.state = State.FinWait1 ∧ c.send.una = wadd c.send.iss 2 then
    finCheck { c with state := State.FinWait2 } t sent nicOk
  else finCheck c t sent nicOk

/-- Embedding of src lines 281-287, then the rest: upon being in Estab after
    a valid ACK, mark the template FIN, transmit, and move to FinWait1; a
    transmission failure propagates before the state changes. -/
def estabClose (c : Connection) (t : SegIn) (nicOk : Bool) : PacketResult :=
  if c.state = State.Estab then
    let c1 := { c with tcph := { c.tcph with fin := true } }
    let w := c1.write [] nicOk
    if w.success then finWait1Check { w.conn with state := State.FinWait1 } t w.sent nicOk
    else ⟨w.conn, w.sent, Outcome.ioError⟩
  else finWait1Check c t [] nicOk

/-- Embedding of src lines 273-288: in a synchronized state, an ACK outside
    the circular interval (send.una, send.nxt + 1) drops the segment;
    otherwise send.una is set to the ACK number, assert!(data.is_empty())
    aborts on payload, and an Estab connection begins the active close. -/
def ackBranch (c : Connection) (t : SegIn) (data : List Nat) (nicOk : Bool) : PacketResult :=
  if c.state = State.Estab ∨ c.state = State.FinWait1 ∨ c.state = State.FinWait2 then
    if is_between_wrapped c.send.una t.acknowledgmentNumber (wadd c.send.nxt 1) = false then
      ⟨c, [], Outcome.done⟩
    else
      let c3 := { c with send := { c.send with una := t.acknowledgmentNumber } }
      if data.isEmpty = false then ⟨c3, [], Outcome.panicked⟩
      else estabClose c3 t nicOk
  else finWait1Check c t [] nicOk

/-- Embedding of src lines 255-263 then the rest: in SynRcvd an acceptable
    ACK completes the handshake into Estab before the synchronized-state
    processing runs. -/
def ackPhase (c : Connection) (t : SegIn) (data : List Nat) (nicOk : Bool) : PacketResult :=
  if c.state = State.SynRcvd
      ∧ is_between_wrapped c.send.una t.acknowledgmentNumber (wadd c.send.nxt 1) = true
  then ackBranch { c with state := State.Estab } t data nicOk
  else ackBranch c t data nicOk

/-- Embedding of Connection::on_packet (src/src/tcp.rs lines 194-309):
    acceptance test, unconditional recv.nxt advance (line 241), ACK-flag
    gate (line 245), then the ACK processing and close transitions. -/
def Connection.on_packet (c : Connection) (t : SegIn) (data : List Nat) (nicOk : Bool) :
    PacketResult :=
  if acceptanceTest c t data = false then ⟨c, [], Outcome.done⟩
  else
    let c1 := { c with recv := { c.recv with nxt := wadd t.sequenceNumber (segLen t data) } }
    if t.ack = false then ⟨c1, [], Outcome.done⟩
    else ackPhase c1 t data nicOk

/-- A placeholder connection, used only as the default of Option.getD when
    extracting from an AcceptResult known to hold a connection. -/
def defaultConn : Connection :=
  { state := .SynRcvd,
    send := { una := 0, nxt := 0, wnd := 0, up := false, wl1 := 0, wl2 := 0, iss := 0 },
    recv := { nxt := 0, wnd := 0, up := false, irs := 0 },
    ip := { ttl := 0, protocol := 0, source := [], destination := [], payloadLen := 0 },
    tcph := { sourcePort := 0, destinationPort := 0, sequenceNumber := 0,
              acknowledgmentNumber := 0, syn := false, ack := false, fin := false,
              rst := false, windowSize := 0, checksum := 0 } }

/-- A placeholder segment, used only as the default of List.headD. -/
def dummySeg : SentSegment :=
  { sourcePort := 0, destinationPort := 0, seq := 0, ack := 0, syn := false,
    ackFlag := false, fin := false, rst := false, window := 0, checksum := 0, payload := [] }

/-- A peer SYN segment: sequence number 1000, window 1024. -/
def c3syn : SegIn :=
  { sourcePort := 5000, destinationPort := 80, sequenceNumber := 1000,
    acknowledgmentNumber := 0, syn := true, ack := false, fin := false, windowSize := 1024 }

/-- A peer IPv4 header for the concrete scenarios. -/
def c3ip : IpIn := { source := [192, 168, 0, 2], destination := [192, 168, 0, 1] }

/-- An established connection about to write payload: send.nxt is 100 and the
    template carries neither SYN nor FIN. -/
def c4conn : Connection :=
  { state := .Estab,
    send := { una := 1, nxt := 100, wnd := 1024, up := false, wl1 := 0, wl2 := 0, iss := 0 },
    recv := { nxt := 1001, wnd := 1024, up := false, irs := 1000 },
    ip := { ttl := 64, protocol := 6, source := [10, 0, 0, 2], destination := [10, 0, 0, 1],
            payloadLen := 0 },
    tcph := { sourcePort := 80, destinationPort := 5000, sequenceNumber := 0,
              acknowledgmentNumber := 0, syn := false, ack := true, fin := false,
              rst := false, windowSize := 1024, checksum := 0 } }

/-- An established connection used to inspect the checksum stamped by write. -/
def c5conn : Connection :=
  { state := .Estab,
    send := { una := 1, nxt := 100, wnd := 1024, up := false, wl1 := 0, wl2 := 0, iss := 0 },
    recv := { nxt := 1001, wnd := 1024, up := false, irs := 1000 },
    ip := { ttl := 64, protocol := 6, source := [10, 0, 0, 2], destination := [10, 0, 0, 1],
            payloadLen := 0 },
    tcph := { sourcePort := 80, destinationPort := 5000, sequenceNumber := 0,
              acknowledgmentNumber := 0, syn := false, ack := true, fin := false,
              rst := false, windowSize := 1024, checksum := 0 } }

/-- Step 0 of the handshake-and-close scenario: accept the peer SYN
    (seq 1000, window 1024). -/
def c6res0 : AcceptResult := Connection.accept c3ip c3syn [] true

/-- The connection right after the SYN is accepted. -/
def c6conn1 : Connection := c6res0.getConn.getD defaultConn

/-- The peer completes the handshake: ACK with seq 1001, ack iss + 1 = 1. -/
def c6ack1 : SegIn :=
  { sourcePort := 5000, destinationPort := 80, sequenceNumber := 1001,
    acknowledgmentNumber := 1, syn := false, ack := true, fin := false, windowSize := 1024 }

/-- Step 2: process the handshake-completing ACK. -/
def c6res2 : PacketResult := c6conn1.on_packet c6ack1 [] true

/-- The peer acknowledges our FIN: ACK with ack iss + 2 = 2. -/
def c6ack2 : SegIn :=
  { sourcePort := 5000, destinationPort := 80, sequenceNumber := 1001,
    acknowledgmentNumber := 2, syn := false, ack := true, fin := false, windowSize := 1024 }

/-- Step 3: process the FIN-acknowledging ACK. -/
def c6res3 : PacketResult := c6res2.conn.on_packet c6ack2 [] true

/-- The peer's own FIN: seq 1001, with a valid ACK of everything we sent. -/
def c6fin : SegIn := { c6ack2 with fin := true }

/-- Step 4: process the peer FIN. -/
def c6res4 : PacketResult := c6res3.conn.on_packet c6fin [] true

/-- A peer SYN advertising a 500-byte window. -/
def c7syn : SegIn := { c3syn with windowSize := 500 }

/-- The connection in SynRcvd produced by accepting the scenario SYN. -/
def c9conn : Connection := (Connection.accept c3ip c3syn [] true).getConn.getD defaultConn

/-- A FIN carrying a valid ACK, arriving while the connection is in SynRcvd:
    it passes the acceptance test and the ACK validity check. -/
def c9finseg : SegIn :=
  { sourcePort := 5000, destinationPort := 80, sequenceNumber := 1001,
    acknowledgmentNumber := 1, syn := false, ack := true, fin := true, windowSize := 1024 }

/-- A data-bearing ACK arriving while the connection is in SynRcvd; the
    handshake completes and the nonempty payload hits the assert. -/
def c9dataseg : SegIn :=
  { sourcePort := 5000, destinationPort := 80, sequenceNumber := 1001,
    acknowledgmentNumber := 1, syn := false, ack := true, fin := false, windowSize := 1024 }

/-- A connection whose receive window is zero. -/
def c2conn : Connection :=
  { state := .SynRcvd,
    send := { una := 0, nxt := 1, wnd := 1024, up := false, wl1 := 0, wl2 := 0, iss := 0 },
    recv := { nxt := 1001, wnd := 0, up := false, irs := 1000 },
    ip := { ttl := 64, protocol := 6, source := [10, 0, 0, 2], destination := [10, 0, 0, 1],
            payloadLen := 0 },
    tcph := { sourcePort := 80, destinationPort := 5000, sequenceNumber := 0,
              acknowledgmentNumber := 0, syn := false, ack := true, fin := false,
              rst := false, windowSize := 1024, checksum := 0 } }

/-- A nonzero-length segment aimed at the zero-window connection. -/
def c2seg : SegIn :=
  { sourcePort := 5000, destinationPort := 80, sequenceNumber := 1001,
    acknowledgmentNumber := 1, syn := true, ack := false, fin := false, windowSize := 1024 }

/-- A connection in SynRcvd that has already received sequence numbers up to
    1001 exclusive. -/
def c8conn : Connection :=
  { state := .SynRcvd,
    send := { una := 0, nxt := 1, wnd := 1024, up := false, wl1 := 0, wl2 := 0, iss := 0 },
    recv := { nxt := 1001, wnd := 1024, up := false, irs := 1000 },
    ip := { ttl := 64, protocol := 6, source := [10, 0, 0, 2], destination := [10, 0, 0, 1],
            payloadLen := 0 },
    tcph := { sourcePort := 80, destinationPort := 5000, sequenceNumber := 0,
              acknowledgmentNumber := 0, syn := false, ack := true, fin := false,
              rst := false, windowSize := 1024, checksum := 0 } }

/-- A redelivered copy of the peer's original SYN (seq 1000), entirely below
    recv.nxt = 1001. -/
def c8seg : SegIn :=
  { sourcePort := 5000, destinationPort := 80, sequenceNumber := 1000,
    acknowledgmentNumber := 0, syn := true, ack := false, fin := false, windowSize := 1024 }

theorem m32_pos : 0 < m32 := by decide

theorem wadd_lt (a b : Nat) : wadd a b < m32 := Nat.mod_lt _ m32_pos

theorem wsub_lt (a b : Nat) : wsub a b < m32 := Nat.mod_lt _ m32_pos

theorem is_between_wrapped_iff_inCircular (s x e : Nat) (hs : s < m32) (hx : x < m32)
    (he : e < m32) : is_between_wrapped s x e = true ↔ inCircular s x e := by
  unfold is_between_wrapped inCircular
  simp only [m32] at *
  split_ifs <;> simp <;> omega

/-- C1: is_between_wrapped start x e returns true iff x lies strictly inside
    the circular interval beginning just after start and ending exclusively at
    e; in particular it returns false when x = start; when start < x as plain
    integers it returns true iff not (start <= e <= x); and when start > x as
    plain integers it returns true iff e < start and e > x. -/
theorem c1_is_between_wrapped_correct (s x e : Nat) (hs : s < m32) (hx : x < m32)
    (he : e < m32) :
    is_between_wrapped s s e = false
      ∧ (is_between_wrapped s x e = true ↔ inCircular s x e)
      ∧ (s < x → (is_between_wrapped s x e = true ↔ ¬(s ≤ e ∧ e ≤ x)))
      ∧ (x < s → (is_between_wrapped s x e = true ↔ (e < s ∧ x < e))) := by
  refine ⟨?_, is_between_wrapped_iff_inCircular s x e hs hx he, ?_, ?_⟩
  · unfold is_between_wrapped
    simp
  · intro hlt
    unfold is_between_wrapped
    split_ifs <;> simp_all <;> omega
  · intro hgt
    unfold is_between_wrapped
    split_ifs <;> simp_all <;> omega

theorem c1_witness :
    (3 : Nat) < m32 ∧ (5 : Nat) < m32 ∧ (9 : Nat) < m32
      ∧ (is_between_wrapped 3 3 9 = false
          ∧ (is_between_wrapped 3 5 9 = true ↔ inCircular 3 5 9)
          ∧ ((3 : Nat) < 5 → (is_between_wrapped 3 5 9 = true ↔ ¬((3 : Nat) ≤ 9 ∧ (9 : Nat) ≤ 5)))
          ∧ ((5 : Nat) < 3 → (is_between_wrapped 3 5 9 = true ↔ ((9 : Nat) < 3 ∧ (5 : Nat) < 9)))) :=
  ⟨by decide, by decide, by decide,
    c1_is_between_wrapped_correct 3 5 9 (by decide) (by decide) (by decide)⟩

theorem write_conn_state (c : Connection) (p : List Nat) (ok : Bool) :
    (Connection.write c p ok).conn.state = c.state := by
  simp only [Connection.write]
  split_ifs <;> rfl

theorem write_conn_recv (c : Connection) (p : List Nat) (ok : Bool) :
    (Connection.write c p ok).conn.recv = c.recv := by
  simp only [Connection.write]
  split_ifs <;> rfl

theorem write_conn_send_una (c : Connection) (p : List Nat) (ok : Bool) :
    (Connection.write c p ok).conn.send.una = c.send.una := by
  simp only [Connection.write]
  split_ifs <;> rfl

theorem finCheck_state_mono (c : Connection) (t : SegIn) (sent : List SentSegment) (ok : Bool) :
    stateRank c.state ≤ stateRank (finCheck c t sent ok).conn.state := by
  simp only [finCheck]
  split_ifs with h1 h2 h3
  · rw [h2]
    simp only [stateRank]
    omega
  · simp only [write_conn_state]
    exact Nat.le_refl _
  · exact Nat.le_refl _
  · exact Nat.le_refl _

theorem finWait1Check_state_mono (c : Connection) (t : SegIn) (sent : List SentSegment)
    (ok : Bool) :
    stateRank c.state ≤ stateRank (finWait1Check c t sent ok).conn.state := by
  simp only [finWait1Check]
  split_ifs with h1
  · refine Nat.le_trans ?_ (finCheck_state_mono _ t sent ok)
    rw [h1.1]
    simp only [stateRank]
    omega
  · exact finCheck_state_mono c t sent ok

theorem estabClose_state_mono (c : Connection) (t : SegIn) (ok : Bool) :
    stateRank c.state ≤ stateRank (estabClose c t ok).conn.state := by
  simp only [estabClose]
  split_ifs with h1 h2
  · refine Nat.le_trans ?_ (finWait1Check_state_mono _ t _ ok)
    rw [h1]
    simp only [stateRank]
    omega
  · simp only [write_conn_state]
    exact Nat.le_refl _
  · exact finWait1Check_state_mono c t [] ok

theorem ackBranch_state_mono (c : Connection) (t : SegIn) (data : List Nat) (ok : Bool) :
    stateRank c.state ≤ stateRank (ackBranch c t data ok).conn.state := by
  simp only [ackBranch]
  split_ifs with h1 h2 h3
  · exact Nat.le_refl _
  · exact Nat.le_refl _
  · exact estabClose_state_mono
      { c with send := { c.send with una := t.acknowledgmentNumber } } t ok
  · exact finWait1Check_state_mono c t [] ok

theorem ackPhase_state_mono (c : Connection) (t : SegIn) (data : List Nat) (ok : Bool) :
    stateRank c.state ≤ stateRank (ackPhase c t data ok).conn.state := by
  simp only [ackPhase]
  split_ifs with h1
  · refine Nat.le_trans ?_ (ackBranch_state_mono _ t data ok)
    rw [h1.1]
    simp only [stateRank]
    omega
  · exact ackBranch_state_mono c t data ok

theorem finTail_other (c : Connection) (t : SegIn) (sent : List SentSegment) (ok : Bool)
    (h1 : c.state ≠ State.FinWait1) (h2 : c.state ≠ State.FinWait2) :
    (finWait1Check c t sent ok).conn = c ∧ (finWait1Check c t sent ok).sent = sent := by
  simp only [finWait1Check, finCheck]
  split_ifs <;> simp_all

theorem ackBranch_bad_ack (c : Connection) (t : SegIn) (data : List Nat) (ok : Bool)
    (hibw : is_between_wrapped c.send.una t.acknowledgmentNumber (wadd c.send.nxt 1) = false) :
    (ackBranch c t data ok).conn = c ∧ (ackBranch c t data ok).sent = [] := by
  simp only [ackBranch]
  split_ifs with hM
  · exact ⟨rfl, rfl⟩
  · simp only [not_or] at hM
    exact finTail_other c t [] ok hM.2.1 hM.2.2

theorem ackPhase_bad_ack (c : Connection) (t : SegIn) (data : List Nat) (ok : Bool)
    (hibw : is_between_wrapped c.send.una t.acknowledgmentNumber (wadd c.send.nxt 1) = false) :
    (ackPhase c t data ok).conn = c ∧ (ackPhase c t data ok).sent = [] := by
  simp only [ackPhase]
  rw [if_neg]
  · exact ackBranch_bad_ack c t data ok hibw
  · simp [hibw]

theorem on_packet_rejected (c : Connection) (t : SegIn) (data : List Nat) (nicOk : Bool)
    (h : acceptanceTest c t data = false) :
    c.on_packet t data nicOk = ⟨c, [], Outcome.done⟩ := by
  simp [Connection.on_packet, h]

theorem on_packet_accepted (c : Connection) (t : SegIn) (data : List Nat) (nicOk : Bool)
    (h : acceptanceTest c t data = true) :
    c.on_packet t data nicOk =
      if t.ack = false then
        ⟨{ c with recv := { c.recv with nxt := wadd t.sequenceNumber (segLen t data) } }, [],
          Outcome.done⟩
      else ackPhase { c with recv := { c.recv with nxt := wadd t.sequenceNumber (segLen t data) } }
        t data nicOk := by
  simp [Connection.on_packet, h]

theorem finCheck_recv (c : Connection) (t : SegIn) (sent : List SentSegment) (ok : Bool) :
    (finCheck c t sent ok).conn.recv = c.recv := by
  simp only [finCheck]
  split_ifs <;> simp [write_conn_recv]

theorem finWait1Check_recv (c : Connection) (t : SegIn) (sent : List SentSegment) (ok : Bool) :
    (finWait1Check c t sent ok).conn.recv = c.recv := by
  simp only [finWait1Check]
  split_ifs <;> simp [finCheck_recv]

theorem estabClose_recv (c : Connection) (t : SegIn) (ok : Bool) :
    (estabClose c t ok).conn.recv = c.recv := by
  simp only [estabClose]
  split_ifs <;> simp [finWait1Check_recv, write_conn_recv]

theorem ackBranch_recv (c : Connection) (t : SegIn) (data : List Nat) (ok : Bool) :
    (ackBranch c t data ok).conn.recv = c.recv := by
  simp only [ackBranch]
  split_ifs <;> simp [estabClose_recv, finWait1Check_recv]

theorem ackPhase_recv (c : Connection) (t : SegIn) (data : List Nat) (ok : Bool) :
    (ackPhase c t data ok).conn.recv = c.recv := by
  simp only [ackPhase]
  split_ifs <;> simp [ackBranch_recv]

theorem on_packet_recv_nxt (c : Connection) (t : SegIn) (data : List Nat) (nicOk : Bool)
    (h : acceptanceTest c t data = true) :
    (c.on_packet t data nicOk).conn.recv.nxt = wadd t.sequenceNumber (segLen t data) := by
  rw [on_packet_accepted c t data nicOk h]
  split_ifs with hA
  · rfl
  · simp [ackPhase_recv]

theorem segLen_le (t : SegIn) (data : List Nat) (h : data.length ≤ 1500) :
    segLen t data = data.length + (if t.fin then 1 else 0) + (if t.syn then 1 else 0) := by
  simp only [segLen, m32]
  split_ifs <;> omega

theorem segLen_le_1502 (t : SegIn) (data : List Nat) (h : data.length ≤ 1500) :
    segLen t data ≤ 1502 := by
  rw [segLen_le t data h]
  split_ifs <;> omega

theorem acceptanceTest_iff (c : Connection) (t : SegIn) (data : List Nat)
    (hq : t.sequenceNumber < m32) (hr : c.recv.nxt < m32) :
    acceptanceTest c t data = true ↔
      ((segLen t data = 0 ∧
          ((c.recv.wnd = 0 ∧ t.sequenceNumber = c.recv.nxt)
            ∨ (c.recv.wnd ≠ 0 ∧ inCircular (wsub c.recv.nxt 1) t.sequenceNumber
                  (wadd c.recv.nxt c.recv.wnd))))
        ∨ (segLen t data ≠ 0 ∧ c.recv.wnd ≠ 0 ∧
            (inCircular (wsub c.recv.nxt 1) t.sequenceNumber (wadd c.recv.nxt c.recv.wnd)
              ∨ inCircular (wsub c.recv.nxt 1) (wadd t.sequenceNumber (segLen t data - 1))
                  (wadd c.recv.nxt c.recv.wnd)))) := by
  unfold acceptanceTest
  split_ifs with h0 hw <;>
    simp_all [is_between_wrapped_iff_inCircular _ _ _ (wsub_lt _ _) hq (wadd_lt _ _),
      is_between_wrapped_iff_inCircular _ _ _ (wsub_lt _ _) (wadd_lt _ _) (wadd_lt _ _)]

theorem old_seq_rejected (c : Connection) (t : SegIn) (data : List Nat)
    (hr : c.recv.nxt < m32) (hq : t.sequenceNumber < m32)
    (hw : c.recv.wnd ≤ 65535) (hlen : data.length ≤ 1500)
    (hd1 : 1 ≤ (c.recv.nxt + m32 - t.sequenceNumber) % m32)
    (hd2 : segLen t data ≤ (c.recv.nxt + m32 - t.sequenceNumber) % m32)
    (hd3 : (c.recv.nxt + m32 - t.sequenceNumber) % m32 ≤ 2 ^ 31) :
    acceptanceTest c t data = false := by
  rcases Bool.eq_false_or_eq_true (acceptanceTest c t data) with hb | hb
  · exfalso
    have h := (acceptanceTest_iff c t data hq hr).mp hb
    have hsl := segLen_le_1502 t data hlen
    unfold inCircular wadd wsub at h
    simp only [m32] at *
    rcases h with ⟨h0, ⟨hwz, hseq⟩ | ⟨hwnz, hin⟩⟩ | ⟨h0, hwnz, hin | hin⟩ <;> omega
  · exact hb

theorem old_ack_not_acceptable (c : Connection) (t : SegIn)
    (hu : c.send.una < m32) (hn : c.send.nxt < m32) (ha : t.acknowledgmentNumber < m32)
    (hD : (c.send.nxt + m32 - c.send.una) % m32 < 2 ^ 31)
    (hold : (c.send.una + m32 - t.acknowledgmentNumber) % m32 ≤ 2 ^ 31) :
    is_between_wrapped c.send.una t.acknowledgmentNumber (wadd c.send.nxt 1) = false := by
  rcases Bool.eq_false_or_eq_true
      (is_between_wrapped c.send.una t.acknowledgmentNumber (wadd c.send.nxt 1)) with hb | hb
  · exfalso
    have h := (is_between_wrapped_iff_inCircular _ _ _ hu ha (wadd_lt _ _)).mp hb
    unfold inCircular wadd at h
    simp only [m32] at *
    omega
  · exact hb

theorem accepted_recv_forward (c : Connection) (t : SegIn) (data : List Nat)
    (hr : c.recv.nxt < m32) (hq : t.sequenceNumber < m32)
    (hw : c.recv.wnd ≤ 65535) (hlen : data.length ≤ 1500)
    (hacc : acceptanceTest c t data = true) :
    ((wadd t.sequenceNumber (segLen t data)) + m32 - c.recv.nxt) % m32 ≤ 2 ^ 31 := by
  have h := (acceptanceTest_iff c t data hq hr).mp hacc
  have hsl := segLen_le_1502 t data hlen
  unfold inCircular wadd wsub at h
  unfold wadd
  simp only [m32] at *
  rcases h with ⟨h0, ⟨hwz, hseq⟩ | ⟨hwnz, hin⟩⟩ | ⟨h0, hwnz, hin | hin⟩ <;> omega

/-- C2: an inbound segment with sequence length slen (payload plus SYN/FIN) is
    accepted by on_packet iff: when slen = 0, either the receive window is
    zero and the sequence number equals recv.nxt exactly, or the window is
    nonzero and the sequence number lies in the circular interval
    (recv.nxt - 1, recv.nxt + recv.wnd); when slen > 0, the window is nonzero
    and the first or last sequence number of the segment lies in that
    interval. A rejected segment is dropped silently: nothing is transmitted
    and the connection is returned unchanged; an accepted segment advances
    recv.nxt to seq + slen mod 2^32. -/
theorem c2_acceptance_test (c : Connection) (t : SegIn) (data : List Nat) (nicOk : Bool)
    (hq : t.sequenceNumber < m32) (hr : c.recv.nxt < m32) :
    (¬ ((segLen t data = 0 ∧
          ((c.recv.wnd = 0 ∧ t.sequenceNumber = c.recv.nxt)
            ∨ (c.recv.wnd ≠ 0 ∧ inCircular (wsub c.recv.nxt 1) t.sequenceNumber
                  (wadd c.recv.nxt c.recv.wnd))))
        ∨ (segLen t data ≠ 0 ∧ c.recv.wnd ≠ 0 ∧
            (inCircular (wsub c.recv.nxt 1) t.sequenceNumber (wadd c.recv.nxt c.recv.wnd)
              ∨ inCircular (wsub c.recv.nxt 1) (wadd t.sequenceNumber (segLen t data - 1))
                  (wadd c.recv.nxt c.recv.wnd)))) →
        c.on_packet t data nicOk = ⟨c, [], Outcome.done⟩)
      ∧ (((segLen t data = 0 ∧
          ((c.recv.wnd = 0 ∧ t.sequenceNumber = c.recv.nxt)
            ∨ (c.recv.wnd ≠ 0 ∧ inCircular (wsub c.recv.nxt 1) t.sequenceNumber
                  (wadd c.recv.nxt c.recv.wnd))))
        ∨ (segLen t data ≠ 0 ∧ c.recv.wnd ≠ 0 ∧
            (inCircular (wsub c.recv.nxt 1) t.sequenceNumber (wadd c.recv.nxt c.recv.wnd)
              ∨ inCircular (wsub c.recv.nxt 1) (wadd t.sequenceNumber (segLen t data - 1))
                  (wadd c.recv.nxt c.recv.wnd)))) →
        (c.on_packet t data nicOk).conn.recv.nxt = wadd t.sequenceNumber (segLen t data)) := by
  constructor
  · intro hn
    rcases Bool.eq_false_or_eq_true (acceptanceTest c t data) with hb | hb
    · exact absurd ((acceptanceTest_iff c t data hq hr).mp hb) hn
    · exact on_packet_rejected c t data nicOk hb
  · intro hy
    exact on_packet_recv_nxt c t data nicOk ((acceptanceTest_iff c t data hq hr).mpr hy)

/-- C8: redelivering an already-acknowledged segment is idempotent. For a
    connection whose fields are 32-bit values with the u16 receive window,
    MTU-bounded payloads, and the send-space invariant that una lies at most
    2^31 - 1 behind nxt in circular order: a segment whose acknowledgment
    number lies at or below send.una in circular order (within the
    representable past of 2^31), or whose sequence numbers lie entirely below
    recv.nxt in circular order (within the representable past), leaves the
    connection state unchanged, transmits nothing, leaves send.una unchanged,
    and never moves recv.nxt backward in circular order. -/
theorem c8_idempotent (c : Connection) (t : SegIn) (data : List Nat) (nicOk : Bool)
    (hu : c.send.una < m32) (hn : c.send.nxt < m32) (hr : c.recv.nxt < m32)
    (hq : t.sequenceNumber < m32) (ha : t.acknowledgmentNumber < m32)
    (hw : c.recv.wnd ≤ 65535) (hlen : data.length ≤ 1500)
    (hD : (c.send.nxt + m32 - c.send.una) % m32 < 2 ^ 31)
    (hold : (c.send.una + m32 - t.acknowledgmentNumber) % m32 ≤ 2 ^ 31
      ∨ (1 ≤ (c.recv.nxt + m32 - t.sequenceNumber) % m32
          ∧ segLen t data ≤ (c.recv.nxt + m32 - t.sequenceNumber) % m32
          ∧ (c.recv.nxt + m32 - t.sequenceNumber) % m32 ≤ 2 ^ 31)) :
    (c.on_packet t data nicOk).conn.state = c.state
      ∧ (c.on_packet t data nicOk).sent = []
      ∧ (c.on_packet t data nicOk).conn.send.una = c.send.una
      ∧ ((c.on_packet t data nicOk).conn.recv.nxt + m32 - c.recv.nxt) % m32 ≤ 2 ^ 31 := by
  rcases hold with hack | ⟨hd1, hd2, hd3⟩
  · rcases Bool.eq_false_or_eq_true (acceptanceTest c t data) with hb | hb
    · have hibw := old_ack_not_acceptable c t hu hn ha hD hack
      have hfwd := accepted_recv_forward c t data hr hq hw hlen hb
      rw [on_packet_accepted c t data nicOk hb]
      split_ifs with hA
      · exact ⟨rfl, rfl, rfl, hfwd⟩
      · obtain ⟨hc, hs⟩ := ackPhase_bad_ack
          { c with recv := { c.recv with nxt := wadd t.sequenceNumber (segLen t data) } }
          t data nicOk hibw
        refine ⟨?_, ?_, ?_, ?_⟩
        · rw [hc]
        · rw [hs]
        · rw [hc]
        · rw [hc]
          exact hfwd
    · rw [on_packet_rejected c t data nicOk hb]
      refine ⟨rfl, rfl, rfl, ?_⟩
      simp only [m32]
      omega
  · have hrej := old_seq_rejected c t data hr hq hw hlen hd1 hd2 hd3
    rw [on_packet_rejected c t data nicOk hrej]
    refine ⟨rfl, rfl, rfl, ?_⟩
    simp only [m32]
    omega

/-- C10: with the states ordered as declared, an on_packet call never moves
    the connection state backward: the rank of the state after the call,
    including calls that end in a propagated transmission error or a panic,
    is at least the rank before it. -/
theorem c10_on_packet_state_monotone (c : Connection) (t : SegIn) (data : List Nat)
    (nicOk : Bool) :
    stateRank c.state ≤ stateRank ((c.on_packet t data nicOk).conn.state) := by
  simp only [Connection.on_packet]
  split_ifs with h1 h2
  · exact Nat.le_refl _
  · exact Nat.le_refl _
  · exact ackPhase_state_mono
      { c with recv := { c.recv with nxt := wadd t.sequenceNumber (segLen t data) } } t data nicOk

/-- C3: accepting any inbound SYN segment (with a healthy interface) yields a
    connection in SynRcvd whose recv.irs is the peer's sequence number and
    recv.nxt = irs + 1 mod 2^32, and transmits exactly one segment carrying
    both SYN and ACK, whose sequence number is iss = 0 and whose
    acknowledgment number is the peer's sequence number + 1 mod 2^32. -/
theorem c3_accept_syn (i : IpIn) (t : SegIn) (data : List Nat) (hsyn : t.syn = true) :
    ((Connection.accept i t data true).getConn.map fun c => (c.state, c.recv.irs, c.recv.nxt))
        = some (State.SynRcvd, t.sequenceNumber, (t.sequenceNumber + 1) % m32)
      ∧ ((Connection.accept i t data true).getSent.map fun s => (s.syn, s.ackFlag, s.seq, s.ack))
        = [(true, true, 0, (t.sequenceNumber + 1) % m32)] := by
  obtain ⟨p1, p2, sq, an, sy, ak, fi, ws⟩ := t
  cases sy
  · exact Bool.noConfusion hsyn
  · exact ⟨rfl, rfl⟩

theorem c3_witness :
    ((Connection.accept c3ip c3syn [] true).getConn.map fun c => (c.state, c.recv.irs, c.recv.nxt))
        = some (State.SynRcvd, c3syn.sequenceNumber, (c3syn.sequenceNumber + 1) % m32)
      ∧ ((Connection.accept c3ip c3syn [] true).getSent.map fun s => (s.syn, s.ackFlag, s.seq, s.ack))
        = [(true, true, 0, (c3syn.sequenceNumber + 1) % m32)] :=
  c3_accept_syn c3ip c3syn [] rfl

/-- C4 (the failing input of the claim): a successful write of one payload
    byte on a connection whose template carries neither SYN nor FIN leaves
    send.nxt unchanged; the advance by the payload length that the claim
    requires is computed but discarded on line 172 of the source. -/
theorem c4_send_nxt_not_advanced :
    (c4conn.write [42] true).success = true
      ∧ (c4conn.write [42] true).payloadBytes = 1
      ∧ c4conn.tcph.syn = false ∧ c4conn.tcph.fin = false
      ∧ (c4conn.write [42] true).conn.send.nxt = c4conn.send.nxt := by
  exact ⟨rfl, rfl, rfl, rfl, rfl⟩

/-- C5 counterexample: at a concrete nonempty payload, the checksum stamped
    into the transmitted segment differs from the checksum computed over the
    IPv4 pseudo-header, the stamped TCP header, and the transmitted payload;
    line 160 of the source passes an empty slice to the codec instead of the
    payload. -/
theorem c5_checksum_counterexample :
    ((c5conn.write [1, 2, 3] true).sent.map fun s => s.checksum)
      ≠ [calc_checksum_ipv4
          { c5conn.tcph with
              sequenceNumber := c5conn.send.nxt,
              acknowledgmentNumber := c5conn.recv.nxt }
          { c5conn.ip with payloadLen := 23 } [1, 2, 3]] := by
  decide

/-- C5 amended: every segment produced by write is stamped with the checksum
    computed via the codec over the IPv4 pseudo-header and the stamped TCP
    header with an empty payload slice; this coincides with the claim exactly
    when the transmitted payload is empty, which holds at every call site in
    the current code. -/
theorem c5_checksum_amended (c : Connection) (payload : List Nat) :
    ((c.write payload true).sent.map fun s => s.checksum)
      = [calc_checksum_ipv4
          { c.tcph with sequenceNumber := c.send.nxt, acknowledgmentNumber := c.recv.nxt }
          { c.ip with payloadLen := min 1500 (20 + 20 + payload.length) - 20 } []] := rfl

/-- C6 (scenario evaluation): the SYN is answered by SYN+ACK(seq 0, ack 1001)
    into SynRcvd; the first ACK reaches Estab, transmits a FIN and lands in
    FinWait1 with send.nxt = 2; the second ACK makes send.una = 2 and moves to
    FinWait2; but the peer's FIN, though it advances recv.nxt to 1002, is
    dropped by the ACK-validity check (the interval (send.una, send.nxt + 1)
    is empty once una = nxt), so nothing is transmitted and the state remains
    FinWait2 instead of the claimed TimeWait. -/
theorem c6_close_scenario :
    (c6res0.getConn.map fun c => c.state) = some State.SynRcvd
      ∧ (c6res0.getSent.map fun s => (s.syn, s.ackFlag, s.seq, s.ack)) = [(true, true, 0, 1001)]
      ∧ c6res2.conn.state = State.FinWait1
      ∧ c6res2.conn.send.nxt = 2
      ∧ (c6res2.sent.map fun s => (s.fin, s.seq, s.ack)) = [(true, 1, 1001)]
      ∧ c6res3.conn.state = State.FinWait2
      ∧ c6res3.conn.send.una = 2
      ∧ c6res4.conn.recv.nxt = 1002
      ∧ c6res4.sent = []
      ∧ c6res4.conn.state = State.FinWait2
      ∧ c6res4.conn.state ≠ State.TimeWait
      ∧ c6res4.outcome = Outcome.done := by
  decide

/-- C7 counterexample: accepting a SYN that advertises a 500-byte window
    produces a connection whose recv.wnd is 500, not the fixed 1024 the claim
    requires. -/
theorem c7_recv_wnd_counterexample :
    ((Connection.accept c3ip c7syn [] true).getConn.map fun c => c.recv.wnd) = some 500
      ∧ ((Connection.accept c3ip c7syn [] true).getConn.map fun c => c.recv.wnd) ≠ some 1024 := by
  decide

/-- C7 amended: the connection returned by accept has recv.wnd equal to the
    window size advertised in the peer's SYN segment; the fixed advertised
    window of 1024 bytes is stored in send.wnd and in the outbound header
    template instead. -/
theorem c7_recv_wnd_amended (i : IpIn) (t : SegIn) (data : List Nat) (hsyn : t.syn = true) :
    ((Connection.accept i t data true).getConn.map
        fun c => (c.recv.wnd, c.send.wnd, c.tcph.windowSize))
      = some (t.windowSize, 1024, 1024) := by
  obtain ⟨p1, p2, sq, an, sy, ak, fi, ws⟩ := t
  cases sy
  · exact Bool.noConfusion hsyn
  · exact rfl

theorem c7_witness :
    ((Connection.accept c3ip c7syn [] true).getConn.map
        fun c => (c.recv.wnd, c.send.wnd, c.tcph.windowSize))
      = some (c7syn.windowSize, 1024, 1024) :=
  c7_recv_wnd_amended c3ip c7syn [] rfl

/-- C9: the abort branches are reachable from the public entry point: a FIN
    with a valid ACK processed while the connection (fresh from accept) is
    not in FinWait2 hits unreachable!, and an accepted segment with a
    nonempty payload in a synchronized state hits assert!(data.is_empty());
    both make on_packet abort the process instead of returning. -/
theorem c9_panic_reachable :
    (c9conn.on_packet c9finseg [] true).outcome = Outcome.panicked
      ∧ (c9conn.on_packet c9dataseg [7] true).outcome = Outcome.panicked := by
  decide

theorem c2_witness :
    c2conn.on_packet c2seg [] true = ⟨c2conn, [], Outcome.done⟩ :=
  (c2_acceptance_test c2conn c2seg [] true (by decide) (by decide)).1 (by decide)

theorem c8_witness :
    (c8conn.on_packet c8seg [] true).conn.state = c8conn.state
      ∧ (c8conn.on_packet c8seg [] true).sent = []
      ∧ (c8conn.on_packet c8seg [] true).conn.send.una = c8conn.send.una
      ∧ ((c8conn.on_packet c8seg [] true).conn.recv.nxt + m32 - c8conn.recv.nxt) % m32 ≤ 2 ^ 31 :=
  c8_idempotent c8conn c8seg [] true (by decide) (by decide) (by decide) (by decide) (by decide)
    (by decide) (by decide) (by decide) (Or.inr ⟨by decide, by decide, by decide⟩)

end RustTcp
